import Mathlib

/-!
Verification of the pymmcore-midi binding layer.

Shallow embedding of `_device.py`, `_core_connect.py` and `_map_spec.py`:
pure computations become Lean functions over exact rationals (Python floats
are modelled by `ℚ`, Python `int(...)` truncation by `pyInt`), stateful
signal wiring becomes explicit record-passing over subscription lists, and
Python exceptions become `Except PyErr`.
-/

namespace PymmcoreMidi

/-- Python exceptions reachable in the modelled code paths: `ValueError`
(from `list.index` and validation in `Mapping.__post_init__`) and `KeyError`
(from dict lookup in `MidiDevice._on_msg`). -/
inductive PyErr
  | valueError
  | keyError
  deriving DecidableEq, Repr

/-- Outbound/inbound MIDI messages, as built by `mido.Message` in
`_device.py`.  `other` stands for any message type the demultiplexer does
not recognise. -/
inductive MidiMsg
  | note_on (channel note : ℕ)
  | note_off (channel note : ℕ)
  | control_change (channel control : ℕ) (value : ℚ)
  | other
  deriving DecidableEq, Repr

/-- `Button` from `_device.py`: a note number and a channel. -/
structure Button where
  note : ℕ
  channel : ℕ
  deriving DecidableEq, Repr

/-- `Knob` from `_device.py`: a control number and a channel. -/
structure Knob where
  control : ℕ
  channel : ℕ
  deriving DecidableEq, Repr

/-- Local notifications a `Button` can emit (`pressed` / `released`
psygnal signals). -/
inductive BtnEvt
  | pressed
  | released
  deriving DecidableEq, Repr

/-- `Button.press`: sends one `note_on` message through the output port.
The second component is the list of local notifications emitted by the
call (the source emits none: signals fire only from `_on_msg`). -/
def Button.press (b : Button) : List MidiMsg × List BtnEvt :=
  ([MidiMsg.note_on b.channel b.note], [])

/-- `Button.release`: sends one `note_off` message; emits no local
notification. -/
def Button.release (b : Button) : List MidiMsg × List BtnEvt :=
  ([MidiMsg.note_off b.channel b.note], [])

/-- `Knob.set_value`: sends one `control_change` message carrying `val`;
emits no `changed` notification (second component). -/
def Knob.set_value (k : Knob) (val : ℚ) : List MidiMsg × List ℚ :=
  ([MidiMsg.control_change k.channel k.control val], [])

/-- A `MidiDevice` for the purpose of demultiplexing: the button ids
(note numbers) and knob ids (control numbers) it owns. -/
structure MidiDevice where
  buttonIds : List ℕ
  knobIds : List ℕ
  deriving DecidableEq, Repr

/-- Events the device demultiplexer raises on the owned primitives. -/
inductive InEvt
  | knobChanged (control : ℕ) (value : ℚ)
  | buttonPressed (note : ℕ)
  | buttonReleased (note : ℕ)
  deriving DecidableEq, Repr

/-- `MidiDevice._on_msg`: routes an inbound message to the owned primitive
keyed by its control/note number and emits the corresponding notification;
dict lookup on an unknown id raises `KeyError`; unknown message types are
silently ignored. -/
def MidiDevice._on_msg (d : MidiDevice) (m : MidiMsg) : Except PyErr (List InEvt) :=
  match m with
  | MidiMsg.control_change _ c v =>
      if c ∈ d.knobIds then Except.ok [InEvt.knobChanged c v] else Except.error PyErr.keyError
  | MidiMsg.note_on _ n =>
      if n ∈ d.buttonIds then Except.ok [InEvt.buttonPressed n] else Except.error PyErr.keyError
  | MidiMsg.note_off _ n =>
      if n ∈ d.buttonIds then Except.ok [InEvt.buttonReleased n] else Except.error PyErr.keyError
  | MidiMsg.other => Except.ok []

/-- Python `int(...)` on a float/rational: truncation toward zero. -/
def pyInt (q : ℚ) : ℤ :=
  if 0 ≤ q then ⌊q⌋ else ⌈q⌉

/-- `knob2value` from `connect_knob_to_property` (with `knob_lower = 0`,
`knob_range = 127 - 0`): affine map from the hardware domain to the
property range. -/
def knob2value (prop_lower prop_upper value : ℚ) : ℚ :=
  (value - 0) / (127 - 0) * (prop_upper - prop_lower) + prop_lower

/-- `value2knob` from `connect_knob_to_property`: affine map from the
property range back to the hardware domain, truncated with `int` and
clamped into `[0, 127]` with `min`/`max`. -/
def value2knob (prop_lower prop_upper value : ℚ) : ℤ :=
  min (max (pyInt ((value - prop_lower) / (prop_upper - prop_lower) * (127 - 0) + 0)) 0) 127

/-- Identities of the callback closures that the binding functions connect
to psygnal signals.  Each call of a binding function creates fresh
closures; `other` stands for any callback connected by someone else. -/
inductive Slot
  | update_core_value
  | update_knob_value
  | update_button_value
  | other (n : ℕ)
  deriving DecidableEq, Repr

/-- Subscription lists touched by `connect_knob_to_property`: the slots
connected to `knob.changed` and to `core.events.propertyChanged`.
`connect` appends (psygnal keeps registration order); `disconnect` removes
the first occurrence and is a no-op when the slot is absent (psygnal
disconnects with `missing_ok=True` by default). -/
structure KnobSubs where
  knobChanged : List Slot
  corePropertyChanged : List Slot
  deriving DecidableEq, Repr

/-- Subscription lists touched by `connect_button_to_property`: the slots
connected to `button.released` and to `core.events.propertyChanged`. -/
structure ButtonSubs where
  buttonReleased : List Slot
  corePropertyChanged : List Slot
  deriving DecidableEq, Repr

/-- What a binding function returns and does at setup time: warnings
emitted, hardware messages sent, the new subscription state, and the
disconnect handle as a function on subscription state. -/
structure ConnectResult (σ : Type) where
  warnings : List String
  sent : List MidiMsg
  state : σ
  disconnect : σ → σ

/-- `connect_knob_to_property` from `_core_connect.py`.  `hasLimits`,
`prop_lower`, `prop_upper` and `current` are the core's responses to
`hasPropertyLimits`, `getPropertyLowerLimit`, `getPropertyUpperLimit` and
`getProperty`.  Without limits: warn and return a no-op handle.  With
limits: one initial `set_value` with the mapped current value, connect
`_update_core_value` to `knob.changed` and `_update_knob_value` to
`core.events.propertyChanged`, and return a handle that disconnects
both. -/
def connect_knob_to_property (knob : Knob) (hasLimits : Bool)
    (prop_lower prop_upper current : ℚ) (s : KnobSubs) : ConnectResult KnobSubs :=
  if ¬hasLimits then
    { warnings := ["Property has no limits and cannot be connected to a MIDI knob"]
      sent := []
      state := s
      disconnect := fun t => t }
  else
    { warnings := []
      sent := (knob.set_value ((value2knob prop_lower prop_upper current : ℤ) : ℚ)).1
      state := { knobChanged := s.knobChanged ++ [Slot.update_core_value]
                 corePropertyChanged := s.corePropertyChanged ++ [Slot.update_knob_value] }
      disconnect := fun t =>
        { knobChanged := t.knobChanged.erase Slot.update_core_value
          corePropertyChanged := t.corePropertyChanged.erase Slot.update_knob_value } }

/-- `is_bool` from `connect_button_to_property`:
`set(allowed) == {"0", "1"}`. -/
def is_bool_allowed (allowed : List String) : Bool :=
  decide (allowed.toFinset = ({"0", "1"} : Finset String))

/-- `set_button_state` closure from `connect_button_to_property`.  The
values reaching it are the strings held by the core, so the Python test
`val in ("0", False, 0)` is the comparison with `"0"`; on `"0"` the button
is released, otherwise it is pressed only for boolean-style targets. -/
def set_button_state (button : Button) (is_bool : Bool) (val : String) : List MidiMsg :=
  if val = "0" then (button.release).1
  else if is_bool then (button.press).1
  else []

/-- `connect_button_to_property` from `_core_connect.py`.  `allowed` and
`current` are the core's responses to `getAllowedPropertyValues` and
`getProperty`.  Empty `allowed`: warn and return a no-op handle.
Otherwise: apply the display policy once to the current value, connect
`_update_core_value` to `button.released` and `_update_button_value` to
`core.events.propertyChanged`, and return a handle that disconnects
both. -/
def connect_button_to_property (button : Button) (allowed : List String)
    (current : String) (s : ButtonSubs) : ConnectResult ButtonSubs :=
  if allowed = [] then
    { warnings := ["Property has no allowed values and cannot be connected to a MIDI button"]
      sent := []
      state := s
      disconnect := fun t => t }
  else
    { warnings := []
      sent := set_button_state button (is_bool_allowed allowed) current
      state := { buttonReleased := s.buttonReleased ++ [Slot.update_core_value]
                 corePropertyChanged := s.corePropertyChanged ++ [Slot.update_button_value] }
      disconnect := fun t =>
        { buttonReleased := t.buttonReleased.erase Slot.update_core_value
          corePropertyChanged := t.corePropertyChanged.erase Slot.update_button_value } }

/-- Python `list.index(x)`: index of the first element equal to `x`,
raising `ValueError` when `x` does not occur. -/
def listIndex (l : List String) (x : String) : Except PyErr ℕ :=
  match l.findIdx? (fun a => a == x) with
  | some i => Except.ok i
  | none => Except.error PyErr.valueError

/-- The `_update_core_value` closure that `connect_button_to_property`
connects to `button.released`: look up the target's current value in
`allowed`, take the next value cyclically (`(index + 1) % len(allowed)`),
write it to the core and apply the display policy to that new value
directly.  Returns the value written to the core and the messages the
display policy sends. -/
def _update_core_value (button : Button) (allowed : List String) (is_bool : Bool)
    (current : String) : Except PyErr (String × List MidiMsg) :=
  match listIndex allowed current with
  | Except.error e => Except.error e
  | Except.ok i =>
      let next_val := allowed.getD ((i + 1) % allowed.length) ""
      Except.ok (next_val, set_button_state button is_bool next_val)

/-- `TYPE_ALIASES.get(s, s)` from `_map_spec.py`. -/
def TYPE_ALIASES (s : String) : String :=
  if s = "button" then "note_on"
  else if s = "knob" then "control_change"
  else if s = "slider" then "control_change"
  else s

/-- `VALID_MESSAGE_TYPES` from `_map_spec.py`. -/
def VALID_MESSAGE_TYPES : List String :=
  ["note_on", "note_off", "control_change", "button", "knob"]

/-- A validated `Mapping` record from `_map_spec.py`. -/
structure Mapping where
  message_type : String
  control_id : ℤ
  device_label : Option String
  property_name : Option String
  core_method : Option String
  deriving DecidableEq, Repr

/-- `Mapping` construction (`__init__` followed by `__post_init__`):
normalise `message_type` through the aliases, reject it when not in
`VALID_MESSAGE_TYPES`, and reject the binding forms when `core_method` is
absent and `device_label`/`property_name` are not both present. -/
def mkMapping (message_type : String) (control_id : ℤ)
    (device_label property_name core_method : Option String) : Except PyErr Mapping :=
  if ¬(TYPE_ALIASES message_type ∈ VALID_MESSAGE_TYPES) then Except.error PyErr.valueError
  else if core_method = none ∧ (property_name = none ∨ device_label = none) then
    Except.error PyErr.valueError
  else
    Except.ok
      ⟨TYPE_ALIASES message_type, control_id, device_label, property_name, core_method⟩

/-- One per-mapping disconnect handle as invoked by the aggregate
`disconnect` closure in `DeviceMap.connect_to_core`, instrumented for the
proof: invoking handle `(i, fails)` appends its identity `i` to the
invocation log and raises exactly when `fails` is true. -/
def callHandle (h : ℕ × Bool) (log : List ℕ) : List ℕ × Option PyErr :=
  (log ++ [h.1], if h.2 then some PyErr.valueError else none)

/-- The aggregate `disconnect` closure from `DeviceMap.connect_to_core`:
`for d in disconnecters: with contextlib.suppress(Exception): d()`.
Every handle is invoked in order; an exception raised by a handle is
suppressed and the loop continues; the second component is the exception
raised by the aggregate itself. -/
def aggregate_disconnect (hs : List (ℕ × Bool)) (log : List ℕ) : List ℕ × Option PyErr :=
  match hs with
  | [] => (log, none)
  | h :: rest => aggregate_disconnect rest (callHandle h log).1

/-- `Mapping.connect_device_to_core` for the mapping with index `i`,
instrumented for the proof of the resolution loop: a successful bind
installs its subscriptions (appending `i` to the install log) and returns
a disconnect handle identified by `i`; a failing bind (e.g. the mapping's
`device_label` does not exist on the core) raises before installing
anything. -/
def bindMapping (i : ℕ) (fails : Bool) (installed : List ℕ) :
    List ℕ × Except PyErr ℕ :=
  if fails then (installed, Except.error PyErr.valueError)
  else (installed ++ [i], Except.ok i)

/-- The resolution loop of `DeviceMap.connect_to_core`:
`[m.connect_device_to_core(device, core) for m in self.mappings]`.
Mappings are bound in order; a raised exception propagates to the caller,
the installs already performed are kept (Python does not roll back), and
the handles collected so far are discarded with the comprehension. -/
def connect_to_core : List (ℕ × Bool) → List ℕ → List ℕ × Except PyErr (List ℕ)
  | [], installed => (installed, Except.ok [])
  | m :: rest, installed =>
      match bindMapping m.1 m.2 installed with
      | (st, Except.error e) => (st, Except.error e)
      | (st, Except.ok h) =>
          match connect_to_core rest st with
          | (st2, Except.error e) => (st2, Except.error e)
          | (st2, Except.ok hs) => (st2, Except.ok (h :: hs))

/-- C1: for a property range with `lower < upper` and any hardware value
`h ∈ [0, 127]`, `value2knob (knob2value h)` returns exactly `h` (so in
particular it differs from `h` by at most 1) and lies in `[0, 127]`. -/
theorem knob_roundtrip (prop_lower prop_upper : ℚ) (hlt : prop_lower < prop_upper)
    (h : ℤ) (h0 : 0 ≤ h) (h127 : h ≤ 127) :
    |value2knob prop_lower prop_upper (knob2value prop_lower prop_upper (h : ℚ)) - h| ≤ 1 ∧
    0 ≤ value2knob prop_lower prop_upper (knob2value prop_lower prop_upper (h : ℚ)) ∧
    value2knob prop_lower prop_upper (knob2value prop_lower prop_upper (h : ℚ)) ≤ 127 := by
  have hR : prop_upper - prop_lower ≠ 0 := sub_ne_zero.mpr (ne_of_gt hlt)
  have key : (knob2value prop_lower prop_upper (h : ℚ) - prop_lower) /
      (prop_upper - prop_lower) * (127 - 0) + 0 = (h : ℚ) := by
    unfold knob2value
    field_simp
    ring
  have hmain : value2knob prop_lower prop_upper (knob2value prop_lower prop_upper (h : ℚ)) = h := by
    unfold value2knob
    rw [key]
    unfold pyInt
    rw [if_pos (by exact_mod_cast h0), Int.floor_intCast]
    rw [max_eq_left h0, min_eq_left h127]
  rw [hmain]
  exact ⟨by simp, h0, h127⟩

/-- Witness for C1 at range `[0, 100]` and hardware value `64`. -/
theorem knob_roundtrip_witness :
    |value2knob 0 100 (knob2value 0 100 ((64 : ℤ) : ℚ)) - 64| ≤ 1 ∧
    0 ≤ value2knob 0 100 (knob2value 0 100 ((64 : ℤ) : ℚ)) ∧
    value2knob 0 100 (knob2value 0 100 ((64 : ℤ) : ℚ)) ≤ 127 :=
  knob_roundtrip 0 100 (by norm_num) 64 (by norm_num) (by norm_num)

/-- C2: when the button's target reports `allowed` and its current value
is the element at position `i` (the first position where that value
occurs, which is what `list.index` returns), the released handler writes
the allowed value at position `(i + 1) % len(allowed)` — the value
immediately following in the reported order, wrapping from the last to the
first — and applies the display policy to that newly computed value
directly. -/
theorem button_cycle_next (button : Button) (allowed : List String) (is_bool : Bool)
    (i : ℕ) (hi : i < allowed.length)
    (hfirst : ∀ j, (hj : j < i) → allowed.get ⟨j, Nat.lt_trans hj hi⟩ ≠ allowed.get ⟨i, hi⟩) :
    ∃ hnext : (i + 1) % allowed.length < allowed.length,
      _update_core_value button allowed is_bool (allowed.get ⟨i, hi⟩) =
        Except.ok (allowed.get ⟨(i + 1) % allowed.length, hnext⟩,
          set_button_state button is_bool (allowed.get ⟨(i + 1) % allowed.length, hnext⟩)) := by
  have hlen : 0 < allowed.length := Nat.lt_of_le_of_lt (Nat.zero_le i) hi
  have hnext : (i + 1) % allowed.length < allowed.length := Nat.mod_lt _ hlen
  refine ⟨hnext, ?_⟩
  have hfind : allowed.findIdx? (fun a => a == allowed.get ⟨i, hi⟩) = some i := by
    rw [List.findIdx?_eq_some_iff_getElem]
    refine ⟨hi, by simp, ?_⟩
    intro j hj
    have hne := hfirst j hj
    simp only [List.get_eq_getElem] at hne ⊢
    simpa using hne
  unfold _update_core_value listIndex
  rw [hfind]
  simp [List.getD_eq_getElem?_getD, List.getElem?_eq_getElem hnext]

/-- Witness for C2 on the enumerated target `{"1", "2", "4", "8"}` at the
last value `"8"`, which wraps to the first value `"1"`. -/
theorem button_cycle_next_witness :
    ∃ hnext : (3 + 1) % (["1", "2", "4", "8"] : List String).length <
        (["1", "2", "4", "8"] : List String).length,
      _update_core_value ⟨8, 10⟩ ["1", "2", "4", "8"] false
          ((["1", "2", "4", "8"] : List String).get ⟨3, by decide⟩) =
        Except.ok ((["1", "2", "4", "8"] : List String).get ⟨(3 + 1) % 4, hnext⟩,
          set_button_state ⟨8, 10⟩ false
            ((["1", "2", "4", "8"] : List String).get ⟨(3 + 1) % 4, hnext⟩)) :=
  button_cycle_next ⟨8, 10⟩ ["1", "2", "4", "8"] false 3 (by decide)
    (by decide)

/-- C3: `press`, `release` and `set_value` each send exactly one outbound
hardware message and emit no local notification; the `pressed`,
`released` and `changed` notifications are emitted by the device
demultiplexer on inbound messages routed to the owned primitive. -/
theorem outbound_one_message_no_emit :
    (∀ b : Button, (Button.press b).1 = [MidiMsg.note_on b.channel b.note] ∧
      (Button.press b).2 = []) ∧
    (∀ b : Button, (Button.release b).1 = [MidiMsg.note_off b.channel b.note] ∧
      (Button.release b).2 = []) ∧
    (∀ (k : Knob) (v : ℚ), (Knob.set_value k v).1 =
      [MidiMsg.control_change k.channel k.control v] ∧ (Knob.set_value k v).2 = []) ∧
    (∀ (d : MidiDevice) (ch n : ℕ), n ∈ d.buttonIds →
      MidiDevice._on_msg d (MidiMsg.note_on ch n) = Except.ok [InEvt.buttonPressed n]) ∧
    (∀ (d : MidiDevice) (ch n : ℕ), n ∈ d.buttonIds →
      MidiDevice._on_msg d (MidiMsg.note_off ch n) = Except.ok [InEvt.buttonReleased n]) ∧
    (∀ (d : MidiDevice) (ch c : ℕ) (v : ℚ), c ∈ d.knobIds →
      MidiDevice._on_msg d (MidiMsg.control_change ch c v) =
        Except.ok [InEvt.knobChanged c v]) := by
  refine ⟨fun b => ⟨rfl, rfl⟩, fun b => ⟨rfl, rfl⟩, fun k v => ⟨rfl, rfl⟩, ?_, ?_, ?_⟩
  · intro d ch n hn
    simp [MidiDevice._on_msg, hn]
  · intro d ch n hn
    simp [MidiDevice._on_msg, hn]
  · intro d ch c v hc
    simp [MidiDevice._on_msg, hc]

/-- Witness for C3 on a device owning button 8 and knob 2. -/
theorem outbound_one_message_no_emit_witness :
    (Button.press ⟨8, 10⟩).2 = [] ∧ (Knob.set_value ⟨2, 10⟩ 64).2 = [] ∧
    MidiDevice._on_msg ⟨[8], [2]⟩ (MidiMsg.note_on 10 8) =
      Except.ok [InEvt.buttonPressed 8] ∧
    MidiDevice._on_msg ⟨[8], [2]⟩ (MidiMsg.control_change 10 2 64) =
      Except.ok [InEvt.knobChanged 2 64] :=
  ⟨(outbound_one_message_no_emit.1 ⟨8, 10⟩).2,
   (outbound_one_message_no_emit.2.2.1 ⟨2, 10⟩ 64).2,
   outbound_one_message_no_emit.2.2.2.1 ⟨[8], [2]⟩ 10 8 (by decide),
   outbound_one_message_no_emit.2.2.2.2.2 ⟨[8], [2]⟩ 10 2 64 (by decide)⟩

/-- C4 counterexample: constructing a `Mapping` with BOTH binding forms
fully specified — `core_method` set and `device_label`/`property_name`
both set — succeeds, while the claim says construction raises whenever
both forms are given at once.  `__post_init__` only rejects the case
where neither form is complete. -/
theorem mkMapping_accepts_both_forms :
    mkMapping "button" 10 (some "Camera") (some "Binning") (some "snap") =
      Except.ok ⟨"note_on", 10, some "Camera", some "Binning", some "snap"⟩ := by
  rfl

/-- C4 as amended: construction succeeds if and only if `message_type`
normalises through the aliases to one of `note_on`, `note_off`,
`control_change`, and at least one complete binding form is given
(`core_method` set, or both `device_label` and `property_name` set);
giving both forms at once is accepted. -/
theorem mkMapping_ok_iff (message_type : String) (control_id : ℤ)
    (device_label property_name core_method : Option String) :
    (∃ m, mkMapping message_type control_id device_label property_name core_method =
        Except.ok m) ↔
      (TYPE_ALIASES message_type ∈ (["note_on", "note_off", "control_change"] : List String) ∧
        (core_method.isSome = true ∨
          (device_label.isSome = true ∧ property_name.isSome = true))) := by
  have halias : (TYPE_ALIASES message_type ∈ VALID_MESSAGE_TYPES) ↔
      TYPE_ALIASES message_type ∈ (["note_on", "note_off", "control_change"] : List String) := by
    unfold TYPE_ALIASES VALID_MESSAGE_TYPES
    split_ifs with h1 h2 h3 <;> simp_all
  unfold mkMapping
  by_cases hv : TYPE_ALIASES message_type ∈ VALID_MESSAGE_TYPES
  · rw [if_neg (not_not_intro hv)]
    by_cases hf : core_method = none ∧ (property_name = none ∨ device_label = none)
    · rw [if_pos hf]
      rcases hf with ⟨hcm, hdp⟩
      constructor
      · rintro ⟨m, hm⟩
        simp at hm
      · rintro ⟨-, h⟩
        exfalso
        rcases h with h | ⟨hd, hp⟩
        · rw [hcm] at h
          simp at h
        · rcases hdp with h | h
          · rw [h] at hp
            simp at hp
          · rw [h] at hd
            simp at hd
    · rw [if_neg hf]
      constructor
      · intro _
        refine ⟨halias.mp hv, ?_⟩
        rcases Decidable.em (core_method = none) with hcm | hcm
        · right
          rcases Decidable.em (property_name = none) with hp | hp
          · exact absurd ⟨hcm, Or.inl hp⟩ hf
          · rcases Decidable.em (device_label = none) with hd | hd
            · exact absurd ⟨hcm, Or.inr hd⟩ hf
            · exact ⟨Option.isSome_iff_ne_none.mpr hd, Option.isSome_iff_ne_none.mpr hp⟩
        · exact Or.inl (Option.isSome_iff_ne_none.mpr hcm)
      · intro _
        exact ⟨_, rfl⟩
  · rw [if_pos hv]
    constructor
    · rintro ⟨m, hm⟩
      simp at hm
    · rintro ⟨hmem, -⟩
      exact absurd (halias.mpr hmem) hv

/-- Witness for C4's amended statement: a mapping with only the
property form present is accepted. -/
theorem mkMapping_ok_iff_witness :
    (∃ m, mkMapping "knob" 2 (some "Camera") (some "Gain") none = Except.ok m) ↔
      (TYPE_ALIASES "knob" ∈ (["note_on", "note_off", "control_change"] : List String) ∧
        ((none : Option String).isSome = true ∨
          ((some "Camera" : Option String).isSome = true ∧
            (some "Gain" : Option String).isSome = true))) :=
  mkMapping_ok_iff "knob" 2 (some "Camera") (some "Gain") none

/-- C5: the aggregate disconnect invokes every one of the underlying
handles, in order, even when some of them raise — each individual failure
is suppressed — and the aggregate invocation itself never raises. -/
theorem aggregate_disconnect_runs_all (hs : List (ℕ × Bool)) (log : List ℕ) :
    aggregate_disconnect hs log = (log ++ hs.map Prod.fst, none) := by
  induction hs generalizing log with
  | nil => simp [aggregate_disconnect]
  | cons h rest ih =>
      simp [aggregate_disconnect, callHandle, ih]

/-- C7: a knob bound to a target with no bounded range, and a button bound
to a target with no allowed values, each emit one warning, send nothing,
install no subscriptions, and return a disconnect handle that does
nothing. -/
theorem unboundable_soft_fail (knob : Knob) (button : Button) (lo hi cur : ℚ)
    (curS : String) (s : KnobSubs) (t : ButtonSubs) :
    ((connect_knob_to_property knob false lo hi cur s).warnings.length = 1 ∧
      (connect_knob_to_property knob false lo hi cur s).sent = [] ∧
      (connect_knob_to_property knob false lo hi cur s).state = s ∧
      ∀ u, (connect_knob_to_property knob false lo hi cur s).disconnect u = u) ∧
    ((connect_button_to_property button [] curS t).warnings.length = 1 ∧
      (connect_button_to_property button [] curS t).sent = [] ∧
      (connect_button_to_property button [] curS t).state = t ∧
      ∀ u, (connect_button_to_property button [] curS t).disconnect u = u) := by
  constructor <;>
    exact ⟨rfl, rfl, rfl, fun u => rfl⟩

/-- Erasing a slot that was freshly appended removes exactly that
occurrence. -/
theorem erase_append_fresh {α : Type} [DecidableEq α] (l : List α) (a : α) (h : a ∉ l) :
    (l ++ [a]).erase a = l := by
  rw [List.erase_append_right _ h, List.erase_cons_head, List.append_nil]

/-- C6: the disconnect handle returned by `connect_knob_to_property` and
by `connect_button_to_property` is idempotent — a second invocation on
the state left by the first has no additional effect (and no invocation
raises: psygnal disconnects with `missing_ok=True`).  The hypotheses say
the binding's callbacks are fresh closures, not already connected before
the call. -/
theorem disconnect_handle_idempotent (knob : Knob) (button : Button)
    (hasLimits : Bool) (lo hi cur : ℚ) (allowed : List String) (curS : String)
    (s : KnobSubs) (t : ButtonSubs)
    (h1 : Slot.update_core_value ∉ s.knobChanged)
    (h2 : Slot.update_knob_value ∉ s.corePropertyChanged)
    (h3 : Slot.update_core_value ∉ t.buttonReleased)
    (h4 : Slot.update_button_value ∉ t.corePropertyChanged) :
    ((connect_knob_to_property knob hasLimits lo hi cur s).disconnect
        ((connect_knob_to_property knob hasLimits lo hi cur s).disconnect
          (connect_knob_to_property knob hasLimits lo hi cur s).state) =
      (connect_knob_to_property knob hasLimits lo hi cur s).disconnect
        (connect_knob_to_property knob hasLimits lo hi cur s).state) ∧
    ((connect_button_to_property button allowed curS t).disconnect
        ((connect_button_to_property button allowed curS t).disconnect
          (connect_button_to_property button allowed curS t).state) =
      (connect_button_to_property button allowed curS t).disconnect
        (connect_button_to_property button allowed curS t).state) := by
  constructor
  · cases hasLimits with
    | false => rfl
    | true =>
        have hck : connect_knob_to_property knob true lo hi cur s =
            { warnings := []
              sent := (knob.set_value ((value2knob lo hi cur : ℤ) : ℚ)).1
              state := { knobChanged := s.knobChanged ++ [Slot.update_core_value]
                         corePropertyChanged :=
                           s.corePropertyChanged ++ [Slot.update_knob_value] }
              disconnect := fun u =>
                { knobChanged := u.knobChanged.erase Slot.update_core_value
                  corePropertyChanged :=
                    u.corePropertyChanged.erase Slot.update_knob_value } } := rfl
        rw [hck]
        dsimp only
        rw [erase_append_fresh _ _ h1, erase_append_fresh _ _ h2,
          List.erase_of_not_mem h1, List.erase_of_not_mem h2]
  · by_cases hA : allowed = []
    · subst hA
      rfl
    · have hcb : connect_button_to_property button allowed curS t =
          { warnings := []
            sent := set_button_state button (is_bool_allowed allowed) curS
            state := { buttonReleased := t.buttonReleased ++ [Slot.update_core_value]
                       corePropertyChanged :=
                         t.corePropertyChanged ++ [Slot.update_button_value] }
            disconnect := fun u =>
              { buttonReleased := u.buttonReleased.erase Slot.update_core_value
                corePropertyChanged :=
                  u.corePropertyChanged.erase Slot.update_button_value } } := by
        unfold connect_button_to_property
        rw [if_neg hA]
      rw [hcb]
      dsimp only
      rw [erase_append_fresh _ _ h3, erase_append_fresh _ _ h4,
        List.erase_of_not_mem h3, List.erase_of_not_mem h4]

/-- Witness for C6 on fresh (empty) subscription states. -/
theorem disconnect_handle_idempotent_witness :
    ((connect_knob_to_property ⟨2, 10⟩ true 0 100 50 ⟨[], []⟩).disconnect
        ((connect_knob_to_property ⟨2, 10⟩ true 0 100 50 ⟨[], []⟩).disconnect
          (connect_knob_to_property ⟨2, 10⟩ true 0 100 50 ⟨[], []⟩).state) =
      (connect_knob_to_property ⟨2, 10⟩ true 0 100 50 ⟨[], []⟩).disconnect
        (connect_knob_to_property ⟨2, 10⟩ true 0 100 50 ⟨[], []⟩).state) ∧
    ((connect_button_to_property ⟨8, 10⟩ ["0", "1"] "1" ⟨[], []⟩).disconnect
        ((connect_button_to_property ⟨8, 10⟩ ["0", "1"] "1" ⟨[], []⟩).disconnect
          (connect_button_to_property ⟨8, 10⟩ ["0", "1"] "1" ⟨[], []⟩).state) =
      (connect_button_to_property ⟨8, 10⟩ ["0", "1"] "1" ⟨[], []⟩).disconnect
        (connect_button_to_property ⟨8, 10⟩ ["0", "1"] "1" ⟨[], []⟩).state) :=
  disconnect_handle_idempotent ⟨2, 10⟩ ⟨8, 10⟩ true 0 100 50 ["0", "1"] "1"
    ⟨[], []⟩ ⟨[], []⟩ (by decide) (by decide) (by decide) (by decide)

/-- C8 counterexample: binding a button whose target currently reports
`"3"` while its allowed values are `["1", "2"]` raises nothing at bind
time — `connect_button_to_property` completes, emits no warning and
installs both subscriptions — contradicting the claim that the error is
surfaced at bind time.  The `ValueError` from `list.index` occurs only
when the released handler later fires. -/
theorem button_inconsistent_value_binds_without_error :
    (connect_button_to_property ⟨9, 10⟩ ["1", "2"] "3" ⟨[], []⟩).warnings = [] ∧
    (connect_button_to_property ⟨9, 10⟩ ["1", "2"] "3" ⟨[], []⟩).state =
      ⟨[Slot.update_core_value], [Slot.update_button_value]⟩ ∧
    _update_core_value ⟨9, 10⟩ ["1", "2"] (is_bool_allowed ["1", "2"]) "3" =
      Except.error PyErr.valueError := by
  exact ⟨rfl, rfl, rfl⟩

/-- C8 as amended: when the target's current value is absent (by exact
string equality) from its own allowed-values sequence, the button
binding's released handler raises `ValueError` — failing fast, not
silently wrapping to index 0 — but this surfaces when the released
notification first fires, not at bind time. -/
theorem button_error_when_current_not_allowed (button : Button) (allowed : List String)
    (is_bool : Bool) (current : String) (h : current ∉ allowed) :
    _update_core_value button allowed is_bool current = Except.error PyErr.valueError := by
  have hfind : allowed.findIdx? (fun a => a == current) = none := by
    rw [List.findIdx?_eq_none_iff]
    intro x hx
    rw [beq_eq_false_iff_ne]
    exact fun hxc => h (hxc ▸ hx)
  unfold _update_core_value listIndex
  rw [hfind]

/-- Witness for C8's amended statement at allowed values `["1", "2"]` and
current value `"3"`. -/
theorem button_error_when_current_not_allowed_witness :
    _update_core_value ⟨9, 10⟩ ["1", "2"] false "3" = Except.error PyErr.valueError :=
  button_error_when_current_not_allowed ⟨9, 10⟩ ["1", "2"] false "3" (by decide)

/-- C9: binding a knob to a target with a bounded range sends exactly one
`set_value` message, carrying the target's current value mapped into the
hardware domain; for range `[0, 100]` and current value `50` that value is
`63`, within 1 of `round(50 / 100 * 127) = 64`. -/
theorem knob_bind_initializes_display (knob : Knob) (lo hi cur : ℚ) (s : KnobSubs) :
    (connect_knob_to_property knob true lo hi cur s).sent =
      [MidiMsg.control_change knob.channel knob.control
        ((value2knob lo hi cur : ℤ) : ℚ)] ∧
    value2knob 0 100 50 = 63 ∧ |(63 : ℤ) - 64| ≤ 1 := by
  refine ⟨rfl, by norm_num [value2knob, pyInt], by norm_num⟩

/-- C10: when the mapping at position `k` in a `DeviceMap` fails to bind,
the exception propagates out of `connect_to_core`, the bindings installed
for the earlier mappings remain installed, and no aggregate disconnect
handle is returned, so the earlier handles are lost. -/
theorem connect_to_core_partial_failure (good : List ℕ) (k : ℕ)
    (rest : List (ℕ × Bool)) (installed : List ℕ) :
    connect_to_core (good.map (fun i => (i, false)) ++ (k, true) :: rest) installed =
      (installed ++ good, Except.error PyErr.valueError) := by
  induction good generalizing installed with
  | nil => simp [connect_to_core, bindMapping]
  | cons a as ih =>
      simp [connect_to_core, bindMapping, ih]

end PymmcoreMidi
